import Mathlib

/-!
Verification of the multi-agents-lab repository: a shallow embedding in Lean 4
of the two demo pipelines

  * `autogen/autogen_simple_demo.py` — a 4-stage sequential prompt-chaining
    workflow (research → analysis → blueprint → review), and
  * `crewai/crewai_demo.py` — a CrewAI travel-planning crew with four agents,
    four tasks, four pure string-template tools, and an output file writer.

The language-model completion boundary is modelled as an explicit parameter
(a function from call index to an optional response; `none` models a request
that raises), so runs are quantified over every possible sequence of
completion responses.
-/

/- ## String containment machinery -/

/-- Boolean test that the first character list is an initial segment of the
second.  Used to express verbatim substring containment. -/
def leadsTo : List Char → List Char → Bool
  | [], _ => true
  | _ :: _, [] => false
  | a :: t, b :: s => a == b && leadsTo t s

/-- Boolean test that the first character list occurs contiguously inside the
second. -/
def occursIn (t : List Char) : List Char → Bool
  | [] => leadsTo t []
  | b :: s => leadsTo t (b :: s) || occursIn t s

/-- The string `t` occurs verbatim (contiguously, in full) inside `s`. -/
def Contains (s t : String) : Prop := occursIn t.data s.data = true

instance (s t : String) : Decidable (Contains s t) := by
  unfold Contains; infer_instance

theorem leadsTo_append (t u : List Char) : leadsTo t (t ++ u) = true := by
  induction t with
  | nil => rfl
  | cons a t ih => simp [leadsTo, ih]

theorem occursIn_of_leadsTo {t s : List Char} (h : leadsTo t s = true) :
    occursIn t s = true := by
  cases s with
  | nil => simpa [occursIn] using h
  | cons b s => simp [occursIn, h]

theorem occursIn_append_left {t s : List Char} (a : List Char)
    (h : occursIn t s = true) : occursIn t (a ++ s) = true := by
  induction a with
  | nil => simpa using h
  | cons x a ih => simp [occursIn, ih]

theorem contains_of_append (x r y : String) : Contains (x ++ r ++ y) r := by
  show occursIn r.data (x ++ r ++ y).data = true
  have hdata : (x ++ r ++ y).data = x.data ++ (r.data ++ y.data) := by
    simp [String.data_append]
  rw [hdata]
  exact occursIn_append_left x.data
    (occursIn_of_leadsTo (leadsTo_append r.data y.data))

/- ## AutoGen pipeline embedding (autogen/autogen_simple_demo.py) -/

/-- System prompt of phase_research. -/
def researchSystemPrompt : String :=
  "You are a market research analyst. Provide a brief analysis of\n3 competitors in AI interview platforms (HireVue, Pymetrics, Codility).\nList their key features and identify market gaps in 150 words."

/-- User message of phase_research (no interpolation). -/
def researchUserMessage : String :=
  "Analyze the current market for AI-powered interview platforms."

/-- System prompt of phase_analysis. -/
def analysisSystemPrompt : String :=
  "You are a product analyst. Based on the market research provided,\nidentify 3 key market opportunities or gaps for a new AI interview platform.\nBe concise in 150 words."

/-- User message of phase_analysis: interpolates self.outputs of key research. -/
def analysisUserMessage (research : String) : String :=
  "Market research findings:\n" ++ research ++
    "\n\nNow identify market opportunities and gaps."

/-- System prompt of phase_blueprint. -/
def blueprintSystemPrompt : String :=
  "You are a product designer. Based on the market analysis and opportunities,\ncreate a brief product blueprint including:\n- Key features (3-5)\n- User journey (2-3 steps)\nKeep it concise - 150 words."

/-- User message of phase_blueprint: interpolates self.outputs of key analysis. -/
def blueprintUserMessage (analysis : String) : String :=
  "Market Analysis:\n" ++ analysis ++
    "\n\nCreate a product blueprint for our platform."

/-- System prompt of phase_review. -/
def reviewSystemPrompt : String :=
  "You are a product reviewer and strategist. Review the product blueprint\nand provide 3 strategic recommendations for success.\nBe concise - 150 words."

/-- User message of phase_review: interpolates self.outputs of key blueprint. -/
def reviewUserMessage (blueprint : String) : String :=
  "Product Blueprint:\n" ++ blueprint ++
    "\n\nProvide strategic review and recommendations."

/-- One chat.completions.create request: the system and user messages sent. -/
structure StageCall where
  system : String
  user : String
  deriving Repr, DecidableEq

/-- Run state of the workflow object: `outputs` embeds the Python dict
self.outputs as an association list in insertion order; `calls` is the trace of
completion requests issued so far; `failed` records that a completion request
raised (the exception propagates, so later phases do not run). -/
structure RunState where
  outputs : List (String × String)
  calls : List StageCall
  failed : Bool
  deriving Repr, DecidableEq

/-- Dictionary lookup self.outputs of a given key (keys are unique by
construction; missing keys never occur on the paths exercised). -/
def getOutput (outs : List (String × String)) (key : String) : String :=
  ((outs.find? (fun p => p.1 == key)).map Prod.snd).getD ""

/-- One phase of the workflow: build the user message from the accumulated
outputs, issue the completion request (response indexed by the number of calls
made so far), and on success store the content under the phase identifier. -/
def phase (id sys : String) (userOf : List (String × String) → String)
    (complete : Nat → Option String) (st : RunState) : RunState :=
  if st.failed then st
  else
    let user := userOf st.outputs
    let calls := st.calls ++ [⟨sys, user⟩]
    match complete st.calls.length with
    | none => { st with calls := calls, failed := true }
    | some content =>
        { outputs := st.outputs ++ [(id, content)], calls := calls,
          failed := false }

/-- The four phases of SimpleInterviewPlatformWorkflow.run, in order: each
entry is the phase identifier, its system prompt, and its user-message builder
over the accumulated outputs. -/
def autogenPhases :
    List (String × String × (List (String × String) → String)) :=
  [("research", researchSystemPrompt, fun _ => researchUserMessage),
   ("analysis", analysisSystemPrompt,
     fun outs => analysisUserMessage (getOutput outs "research")),
   ("blueprint", blueprintSystemPrompt,
     fun outs => blueprintUserMessage (getOutput outs "analysis")),
   ("review", reviewSystemPrompt,
     fun outs => reviewUserMessage (getOutput outs "blueprint"))]

/-- Execute a list of phases in sequence from a given state. -/
def runPhases (complete : Nat → Option String)
    (ps : List (String × String × (List (String × String) → String)))
    (st : RunState) : RunState :=
  ps.foldl (fun st p => phase p.1 p.2.1 p.2.2 complete st) st

/-- The state reached after the first k phases of run (k ≤ 4). -/
def autogenAfter (complete : Nat → Option String) (k : Nat) : RunState :=
  runPhases complete (autogenPhases.take k) ⟨[], [], false⟩

/-- SimpleInterviewPlatformWorkflow.run: all four phases from the fresh
state. -/
def autogenRun (complete : Nat → Option String) : RunState :=
  runPhases complete autogenPhases ⟨[], [], false⟩

example :
    (autogenRun (fun n => some (toString n))).outputs =
      [("research", "0"), ("analysis", "1"), ("blueprint", "2"),
       ("review", "3")] := by decide

/- ## CrewAI embedding (crewai/crewai_demo.py) -/

/-- Tool search_flight_prices: a pure string template over its parameters (its
body performs no I/O; an unused local search_query string is elided). -/
def search_flight_prices (destination : String)
    (departure_city : String := "New York") : String :=
  "\n    Research task: Find flights from " ++ departure_city ++ " to " ++
    destination ++
    ".\n\n    Please research and provide:\n    1. Current flight options with prices (check Kayak, Skyscanner, Google Flights)\n    2. Airlines operating these routes\n    3. Flight durations and layover information\n    4. Best booking times and price trends\n    5. Seasonal pricing variations\n\n    Focus on realistic, current pricing for January 2026 travel.\n    "

/-- Tool search_hotel_options: a pure string template over its parameters. -/
def search_hotel_options (location check_in_date : String) : String :=
  "\n    Research task: Find hotels in " ++ location ++ " for check-in " ++
    check_in_date ++
    ".\n\n    Please research and provide:\n    1. Top-rated hotels with guest reviews (check Booking.com, TripAdvisor, Google Hotels)\n    2. Current pricing for 5-night stays\n    3. Hotel amenities and facilities\n    4. Location details and proximity to attractions\n    5. Guest ratings and recommendation reasons\n\n    Include budget, mid-range, and luxury options.\n    Focus on hotels with high ratings and realistic current prices.\n    "

/-- Tool search_attractions_activities: a pure string template over its
parameter. -/
def search_attractions_activities (destination : String) : String :=
  "\n    Research task: Find attractions and activities in " ++ destination ++
    ".\n\n    Please research and provide:\n    1. Top-rated attractions and their estimated visit times\n    2. Popular day tours and multi-day excursions\n    3. Outdoor activities (hiking, water sports, wildlife viewing)\n    4. Cultural sites and local experiences\n    5. Typical costs for tours and entrance fees\n    6. Best time to visit each location\n    7. Transportation options between sites\n\n    Include hidden gems and less-known but highly-rated activities.\n    Focus on realistic itineraries that can be completed in 5 days.\n    "

/-- Tool search_travel_costs: a pure string template over its parameter. -/
def search_travel_costs (destination : String) : String :=
  "\n    Research task: Find cost information for a trip to " ++ destination ++
    ".\n\n    Please research and provide:\n    1. Average meal costs (budget, mid-range, restaurants)\n    2. Public transportation costs and rental car prices\n    3. Tour and activity pricing\n    4. Entrance fees for attractions\n    5. Estimated daily costs for different budget levels\n    6. Money-saving tips and best budget periods\n    7. Currency exchange rates and payment methods\n\n    Provide realistic, current pricing information for 2025.\n    Focus on actual costs travelers can expect.\n    "

/-- An Agent record as constructed by the create_*_agent helpers (verbose and
allow_delegation are fixed literals at every call site and elided). -/
structure CrewAgent where
  role : String
  goal : String
  backstory : String
  tools : List String
  deriving Repr, DecidableEq

/-- A Task record as constructed by the create_*_task helpers; agentRole names
the agent the task is bound to. -/
structure CrewTask where
  description : String
  agentRole : String
  expected_output : String
  deriving Repr, DecidableEq

/-- Python str.lower(), modelled character by character (the destinations
compared against are ASCII, for which Char.toLower agrees with Python). -/
def strLower (s : String) : String := String.mk (s.data.map Char.toLower)

/-- The hotel-location computation inside create_hotel_agent: an if/elif chain
on destination.lower(). -/
def hotelLocationAgent (destination : String) : String :=
  if strLower destination == "iceland" then "Reykjavik"
  else if strLower destination == "france" then "Paris"
  else if strLower destination == "japan" then "Tokyo"
  else destination

/-- The hotel-location computation inside create_hotel_task: an if/elif chain
on destination.lower(), textually duplicated from create_hotel_agent. -/
def hotelLocationTask (destination : String) : String :=
  if strLower destination == "iceland" then "Reykjavik"
  else if strLower destination == "france" then "Paris"
  else if strLower destination == "japan" then "Tokyo"
  else destination

/-- create_flight_agent. -/
def create_flight_agent (destination trip_dates : String) : CrewAgent :=
  { role := "Flight Specialist",
    goal := "Research and recommend the best flight options for the " ++
      destination ++ " trip (" ++ trip_dates ++
      "), considering dates, airlines, prices, and flight durations. Use real data from flight booking sites to provide accurate, current pricing.",
    backstory := "You are an experienced flight specialist with deep knowledge of airline schedules, pricing patterns, and travel routes. You excel at finding the best flight options that balance cost and convenience. You have booked thousands of flights and know the best times to fly. You always research current prices and use real booking site data.",
    tools := ["search_flight_prices"] }

/-- create_hotel_agent. -/
def create_hotel_agent (destination trip_dates : String) : CrewAgent :=
  { role := "Accommodation Specialist",
    goal := "Suggest top-rated hotels in " ++ hotelLocationAgent destination ++
      " for the " ++ destination ++ " trip (" ++ trip_dates ++
      "), considering amenities, location, and value for money. Use real hotel data from booking sites with current prices and reviews.",
    backstory := "You are a seasoned accommodation expert with extensive knowledge of hotels worldwide. You understand traveler needs and can match them with perfect accommodations. You read reviews meticulously and know which hotels offer the best experience for different budgets. You always check current availability and actual guest reviews.",
    tools := ["search_hotel_options"] }

/-- create_itinerary_agent. -/
def create_itinerary_agent (destination trip_duration : String) : CrewAgent :=
  { role := "Travel Planner",
    goal := "Create a detailed day-by-day travel plan with activities and attractions that maximize the " ++
      destination ++ " experience in " ++ trip_duration ++
      ". Use real current information about attractions, opening hours, and accessibility.",
    backstory := "You are a creative travel planner with a passion for " ++
      destination ++ ". You have extensive knowledge of " ++ destination ++
      "'s attractions, culture, and hidden gems. You create itineraries that are well-paced, exciting, and memorable. You consider travel times, weather, and traveler preferences to craft the perfect journey. You always verify current information about attractions and tours.",
    tools := ["search_attractions_activities"] }

/-- create_budget_agent. -/
def create_budget_agent (destination : String) : CrewAgent :=
  { role := "Financial Advisor",
    goal := "Calculate total trip costs for " ++ destination ++
      " and identify cost-saving opportunities while maintaining quality. Use real current pricing data for all expenses.",
    backstory := "You are a meticulous financial advisor specializing in travel budgeting. You can analyze costs across flights, accommodations, activities, and meals. You identify hidden costs and suggest smart ways to save money without compromising the travel experience. You research actual current prices and provide realistic budget estimates.",
    tools := ["search_travel_costs"] }

/-- create_flight_task. -/
def create_flight_task (flight_agent : CrewAgent)
    (destination trip_dates departure_city : String) : CrewTask :=
  { description := "Research and compile a list of REAL flight options from " ++
      departure_city ++ " to " ++ destination ++ " for the trip (" ++
      trip_dates ++
      "). Use actual current flight data from booking sites like Skyscanner, Kayak, Google Flights, or Expedia. Find at least 2-3 different flight options from major airlines, including details about departure times, arrival times, duration, and current realistic prices. Provide recommendations on which flight offers the best value considering both price and convenience.",
    agentRole := flight_agent.role,
    expected_output := "A detailed report with 2-3 REAL flight options from " ++
      departure_city ++ " to " ++ destination ++
      " including airlines, times, duration, current prices, and a recommendation with reasoning based on actual data from flight booking sites" }

/-- create_hotel_task. -/
def create_hotel_task (hotel_agent : CrewAgent)
    (destination trip_dates : String) : CrewTask :=
  { description := "Based on the trip dates (" ++ trip_dates ++
      "), find and recommend the top 3-4 REAL hotels in " ++
      hotelLocationTask destination ++
      ". Research actual hotels on Booking.com, TripAdvisor, Google Hotels, and Expedia. For each hotel, provide the actual name, current guest ratings, real prices per night, confirmed amenities, and explain why it suits this trip. Include a mix of budget, mid-range, and luxury options with honest reviews.",
    agentRole := hotel_agent.role,
    expected_output := "A curated list of 3-4 REAL hotel recommendations in " ++
      hotelLocationTask destination ++
      " with actual details about each hotel, confirmed amenities, real guest ratings, current prices, and personalized recommendations based on actual guest reviews" }

/-- create_itinerary_task. -/
def create_itinerary_task (itinerary_agent : CrewAgent)
    (destination trip_duration trip_dates : String) : CrewTask :=
  { description := "Create a detailed " ++ trip_duration ++ " itinerary for " ++
      destination ++ " (" ++ trip_dates ++
      ") based on REAL current information. Research actual attractions, their opening hours, accessibility, and entry fees. Plan day-by-day activities including visits to real attractions and verified sites. Include realistic estimated travel times between locations, activity durations, and recommended visit times. Consider actual weather patterns for this time period in " ++
      destination ++ " and make the itinerary realistic and well-paced.",
    agentRole := itinerary_agent.role,
    expected_output := "A detailed day-by-day itinerary for " ++ destination ++
      " with REAL activities based on verified attractions, realistic travel times, accurate estimated durations, current entry fees, and practical tips for " ++
      trip_duration ++ " trip to " ++ destination }

/-- create_budget_task. -/
def create_budget_task (budget_agent : CrewAgent)
    (destination trip_duration : String) : CrewTask :=
  { description := "Based on the REAL flight options, hotel recommendations, and itinerary created by the other agents, calculate a comprehensive budget for the " ++
      trip_duration ++ " " ++ destination ++
      " trip using current pricing. Research and include actual costs for flights, accommodation, meals (use real restaurant prices in the destination), activities/tours (verified prices), transportation within " ++
      destination ++
      ", and miscellaneous expenses. Provide total cost estimates for budget, mid-range, and luxury options based on real prices. Suggest genuine cost-saving tips based on current market conditions.",
    agentRole := budget_agent.role,
    expected_output := "A comprehensive budget report with itemized REAL costs for flights, accommodation, meals, activities with actual entry fees, transportation, and total realistic estimates at different budget levels, plus evidence-based cost-saving recommendations for a " ++
      trip_duration ++ " trip to " ++ destination }

/-- The string "=" * 80 used in banners and the output file. -/
def eq80 : String := String.mk (List.replicate 80 '=')

/-- The string "-" * 80 used around the final report in the output file. -/
def dash80 : String := String.mk (List.replicate 80 '-')

/-- The argument record of crewai_demo.main, with its default values. -/
structure CrewParams where
  destination : String := "Iceland"
  trip_duration : String := "5 days"
  trip_dates : String := "January 15-20, 2026"
  departure_city : String := "New York"
  travelers : Nat := 2
  budget_preference : String := "mid-range"
  deriving Repr, DecidableEq

/-- The inputs dictionary passed to crew.kickoff (travelers is stringified
only for uniformity of the record; the keys are as in the source). -/
structure KickoffInputs where
  trip_destination : String
  trip_duration : String
  trip_dates : String
  departure_city : String
  travelers : Nat
  budget_preference : String
  deriving Repr, DecidableEq

/-- Everything crewai_demo.main constructs before crew.kickoff: the banner
lines that mention the run parameters, the four agents, the four tasks (in
crew order), and the kickoff inputs dictionary. -/
structure CrewSetup where
  bannerTravelers : String
  bannerBudget : String
  agents : List CrewAgent
  tasks : List CrewTask
  kickoffInputs : KickoffInputs
  deriving Repr, DecidableEq

/-- The construction section of crewai_demo.main: banner prints, agent
creation, task creation, and the inputs dictionary handed to crew.kickoff. -/
def mainSetup (p : CrewParams) : CrewSetup :=
  let flight_agent := create_flight_agent p.destination p.trip_dates
  let hotel_agent := create_hotel_agent p.destination p.trip_dates
  let itinerary_agent := create_itinerary_agent p.destination p.trip_duration
  let budget_agent := create_budget_agent p.destination
  { bannerTravelers := "Travelers: " ++ toString p.travelers,
    bannerBudget := "Budget: " ++ p.budget_preference,
    agents := [flight_agent, hotel_agent, itinerary_agent, budget_agent],
    tasks :=
      [create_flight_task flight_agent p.destination p.trip_dates
         p.departure_city,
       create_hotel_task hotel_agent p.destination p.trip_dates,
       create_itinerary_task itinerary_agent p.destination p.trip_duration
         p.trip_dates,
       create_budget_task budget_agent p.destination p.trip_duration],
    kickoffInputs :=
      { trip_destination := p.destination,
        trip_duration := p.trip_duration,
        trip_dates := p.trip_dates,
        departure_city := p.departure_city,
        travelers := p.travelers,
        budget_preference := p.budget_preference } }

/-- The content written to crewai_output.txt by the with-open block of main
after a successful kickoff: a fixed header (the subject line is the hardcoded
literal of the source, not an interpolation of the parameters), the
datetime.now() timestamp, fixed notes, and the full kickoff result.  The
parameter record is in scope in main but none of its fields is used by the
write block. -/
def crewaiOutputContent (_p : CrewParams) (now result : String) : String :=
  eq80 ++ "\n" ++
  "CrewAI Multi-Agent Travel Planning System - Real API Execution Report\n" ++
  "Planning a 5-Day Trip to Iceland\n" ++
  eq80 ++ "\n\n" ++
  "Execution Time: " ++ now ++ "\n" ++
  "API Version: REAL API CALLS (OpenAI GPT-4)\n" ++
  "Data Source: Web research via OpenAI\n\n" ++
  "IMPORTANT NOTES:\n" ++
  "- All flight prices, hotel costs, and attraction information is based on real data\n" ++
  "- Prices are current as of the date this was run\n" ++
  "- Hotel availability and prices may vary by booking date\n" ++
  "- Weather conditions and attraction hours should be verified before travel\n\n" ++
  "FINAL TRAVEL PLAN REPORT:\n" ++
  dash80 ++ "\n" ++
  result ++
  "\n" ++ dash80 ++ "\n"

/-- The observable outcome of one invocation of crewai_demo.main. -/
structure CrewRunResult where
  exitCode : Nat
  kickoffCalls : Nat
  fileContent : Option String
  deriving Repr, DecidableEq

/-- crewai_demo.main: validate_config is modelled by configValid, and
crew.kickoff by an optional result (none models a request that raises).  On
validation failure main calls exit(1) before any agent, task or kickoff.  On
kickoff failure the exception is caught, nothing is written, and the process
exits 0.  The single output file is written only on the success path, in mode
w, after kickoff returns. -/
def crewaiMain (p : CrewParams) (configValid : Bool)
    (kickoff : Option String) (now : String) : CrewRunResult :=
  if configValid then
    match kickoff with
    | some result => ⟨0, 1, some (crewaiOutputContent p now result)⟩
    | none => ⟨0, 1, none⟩
  else ⟨1, 0, none⟩

/- ## AutoGen top level and preview -/

/-- The truncated-preview expression shared by the four phase printers:
artifact[:500] + "..." if len(artifact) > 500 else artifact. -/
def preview (artifact : String) : String :=
  if artifact.length > 500 then artifact.take 500 ++ "..." else artifact

/-- The preview print of phase_research, transcribed inline from its print
statement. -/
def researchPreview (outs : List (String × String)) : String :=
  if (getOutput outs "research").length > 500 then
    (getOutput outs "research").take 500 ++ "..."
  else getOutput outs "research"

/-- The preview print of phase_analysis, transcribed inline. -/
def analysisPreview (outs : List (String × String)) : String :=
  if (getOutput outs "analysis").length > 500 then
    (getOutput outs "analysis").take 500 ++ "..."
  else getOutput outs "analysis"

/-- The preview print of phase_blueprint, transcribed inline. -/
def blueprintPreview (outs : List (String × String)) : String :=
  if (getOutput outs "blueprint").length > 500 then
    (getOutput outs "blueprint").take 500 ++ "..."
  else getOutput outs "blueprint"

/-- The preview print of phase_review, transcribed inline. -/
def reviewPreview (outs : List (String × String)) : String :=
  if (getOutput outs "review").length > 500 then
    (getOutput outs "review").take 500 ++ "..."
  else getOutput outs "review"

/-- The observable outcome of one process invocation of
autogen_simple_demo.py: the exit code and the number of completion requests
issued.  Config.validate_setup is modelled by configValid; when it is false
the constructor calls exit(1) before the client is even built, so no
completion request is ever made.  A completion failure during run is caught by
the top-level except block, which prints a troubleshooting checklist and falls
off the end of the script (exit code 0). -/
def autogenMain (configValid : Bool) (complete : Nat → Option String) :
    Nat × Nat :=
  if configValid then (0, (autogenRun complete).calls.length)
  else (1, 0)

/- ## Characterization lemmas for the successful AutoGen run -/

theorem autogenRun_calls_eq (f : Nat → String) :
    (autogenRun (fun n => some (f n))).calls =
      [⟨researchSystemPrompt, researchUserMessage⟩,
       ⟨analysisSystemPrompt, analysisUserMessage (f 0)⟩,
       ⟨blueprintSystemPrompt, blueprintUserMessage (f 1)⟩,
       ⟨reviewSystemPrompt, reviewUserMessage (f 2)⟩] := rfl

theorem autogenRun_outputs_eq (f : Nat → String) :
    (autogenRun (fun n => some (f n))).outputs =
      [("research", f 0), ("analysis", f 1), ("blueprint", f 2),
       ("review", f 3)] := rfl

/- ## Further containment lemmas -/

theorem leadsTo_self (t : List Char) : leadsTo t t = true := by
  have h := leadsTo_append t []
  simpa using h

theorem leadsTo_mono {t s : List Char} (u : List Char)
    (h : leadsTo t s = true) : leadsTo t (s ++ u) = true := by
  induction t generalizing s with
  | nil => rfl
  | cons a t ih =>
    cases s with
    | nil => simp [leadsTo] at h
    | cons b s =>
      simp only [leadsTo, Bool.and_eq_true] at h
      simp only [List.cons_append, leadsTo, Bool.and_eq_true]
      exact ⟨h.1, ih h.2⟩

theorem occursIn_nil_left (u : List Char) : occursIn [] u = true := by
  cases u <;> simp [occursIn, leadsTo]

theorem occursIn_append_right {t s : List Char} (u : List Char)
    (h : occursIn t s = true) : occursIn t (s ++ u) = true := by
  induction s with
  | nil =>
    cases t with
    | nil => simpa using occursIn_nil_left u
    | cons a t => simp [occursIn, leadsTo] at h
  | cons b s ih =>
    simp only [occursIn, Bool.or_eq_true] at h
    simp only [List.cons_append, occursIn, Bool.or_eq_true]
    rcases h with h | h
    · exact Or.inl (leadsTo_mono u h)
    · exact Or.inr (ih h)

theorem contains_suffix (x t : String) : Contains (x ++ t) t := by
  show occursIn t.data (x ++ t).data = true
  have hd : (x ++ t).data = x.data ++ t.data := rfl
  rw [hd]
  exact occursIn_append_left x.data (occursIn_of_leadsTo (leadsTo_self t.data))

theorem contains_append_right {s t : String} (u : String)
    (h : Contains s t) : Contains (s ++ u) t := by
  show occursIn t.data (s ++ u).data = true
  have hd : (s ++ u).data = s.data ++ u.data := rfl
  rw [hd]
  exact occursIn_append_right u.data h

/- ## Claim theorems -/

/-- C1: in every run of the 4-stage AutoGen pipeline, for every sequence of
completion responses, stage i's user message contains verbatim and in full the
prior-stage artifact its template references (analysis's message contains
research's artifact, blueprint's contains analysis's, review's contains
blueprint's), and every stage's user message is built only from artifacts of
stages strictly before it: the trace of user messages is characterized as a
function of the strictly earlier responses, so two runs whose first three
responses agree produce identical request traces (in particular no message
depends on the artifact of its own or any later stage). -/
theorem C1_messages_use_only_prior_artifacts (f : Nat → String) :
    ((autogenRun (fun n => some (f n))).calls.map StageCall.user =
      [researchUserMessage, analysisUserMessage (f 0),
       blueprintUserMessage (f 1), reviewUserMessage (f 2)]) ∧
    Contains (analysisUserMessage (f 0)) (f 0) ∧
    Contains (blueprintUserMessage (f 1)) (f 1) ∧
    Contains (reviewUserMessage (f 2)) (f 2) ∧
    (∀ g : Nat → String, f 0 = g 0 → f 1 = g 1 → f 2 = g 2 →
      (autogenRun (fun n => some (f n))).calls =
        (autogenRun (fun n => some (g n))).calls) := by
  refine ⟨rfl, contains_of_append _ _ _, contains_of_append _ _ _,
    contains_of_append _ _ _, ?_⟩
  intro g h0 h1 h2
  rw [autogenRun_calls_eq, autogenRun_calls_eq, h0, h1, h2]

/-- Witness for C1 at a concrete response sequence: the message trace is as
characterized, and a run whose review response is changed has the same request
trace. -/
theorem C1_messages_use_only_prior_artifacts_witness :
    ((autogenRun (fun n => some (toString n))).calls.map StageCall.user =
      [researchUserMessage, analysisUserMessage "0", blueprintUserMessage "1",
       reviewUserMessage "2"]) ∧
    (autogenRun (fun n => some (toString n))).calls =
      (autogenRun (fun n =>
        some (if n == 3 then "other" else toString n))).calls :=
  ⟨(C1_messages_use_only_prior_artifacts (fun n => toString n)).1,
   (C1_messages_use_only_prior_artifacts (fun n => toString n)).2.2.2.2
     (fun n => if n == 3 then "other" else toString n) rfl rfl rfl⟩

/-- C2 as stated is false: the claim says stage i's user message includes the
artifact of every earlier stage, but with completion responses "R", "A", "B",
"V" the blueprint stage's user message does not contain the research artifact
"R", and the review stage's user message contains neither the research
artifact "R" nor the analysis artifact "A". -/
theorem C2_counterexample :
    (autogenRun (fun n => some (["R", "A", "B", "V"].getD n ""))).outputs =
      [("research", "R"), ("analysis", "A"), ("blueprint", "B"),
       ("review", "V")] ∧
    ((autogenRun (fun n => some (["R", "A", "B", "V"].getD n ""))).calls.map
      StageCall.user =
      [researchUserMessage, analysisUserMessage "R", blueprintUserMessage "A",
       reviewUserMessage "B"]) ∧
    ¬ Contains (blueprintUserMessage "A") "R" ∧
    ¬ Contains (reviewUserMessage "B") "R" ∧
    ¬ Contains (reviewUserMessage "B") "A" := by
  refine ⟨rfl, rfl, ?_, ?_, ?_⟩ <;> decide

/-- C2 amended: for every stage after the first, the stage's user message
interpolates the artifact of the immediately preceding stage only — analysis's
message contains the research artifact, blueprint's contains the analysis
artifact, review's contains the blueprint artifact — and no other stage
artifact is interpolated. -/
theorem C2_messages_contain_immediate_predecessor (f : Nat → String) :
    (((autogenRun (fun n => some (f n))).calls.map StageCall.user).getD 1 "" =
      analysisUserMessage (f 0) ∧
     Contains (analysisUserMessage (f 0)) (f 0)) ∧
    (((autogenRun (fun n => some (f n))).calls.map StageCall.user).getD 2 "" =
      blueprintUserMessage (f 1) ∧
     Contains (blueprintUserMessage (f 1)) (f 1)) ∧
    (((autogenRun (fun n => some (f n))).calls.map StageCall.user).getD 3 "" =
      reviewUserMessage (f 2) ∧
     Contains (reviewUserMessage (f 2)) (f 2)) :=
  ⟨⟨rfl, contains_of_append _ _ _⟩, ⟨rfl, contains_of_append _ _ _⟩,
   ⟨rfl, contains_of_append _ _ _⟩⟩

/-- C3: across a run with any sequence of successful completion responses, the
context map self.outputs grows monotonically — each of the four stages appends
exactly one new entry under its own identifier, leaving all previously
inserted entries unchanged — so after stage k the context is exactly the first
k entries in execution order, and the full run ends with exactly the four
entries research, analysis, blueprint, review in stage-definition order. -/
theorem C3_outputs_grow_monotonically (f : Nat → String) :
    (autogenAfter (fun n => some (f n)) 0).outputs = [] ∧
    (autogenAfter (fun n => some (f n)) 1).outputs =
      (autogenAfter (fun n => some (f n)) 0).outputs ++ [("research", f 0)] ∧
    (autogenAfter (fun n => some (f n)) 2).outputs =
      (autogenAfter (fun n => some (f n)) 1).outputs ++ [("analysis", f 1)] ∧
    (autogenAfter (fun n => some (f n)) 3).outputs =
      (autogenAfter (fun n => some (f n)) 2).outputs ++ [("blueprint", f 2)] ∧
    (autogenAfter (fun n => some (f n)) 4).outputs =
      (autogenAfter (fun n => some (f n)) 3).outputs ++ [("review", f 3)] ∧
    autogenRun (fun n => some (f n)) = autogenAfter (fun n => some (f n)) 4 ∧
    (autogenRun (fun n => some (f n))).outputs =
      [("research", f 0), ("analysis", f 1), ("blueprint", f 2),
       ("review", f 3)] :=
  ⟨rfl, rfl, rfl, rfl, rfl, rfl, rfl⟩

/-- C4: if the completion request of stage k (stages numbered 0..3 here)
fails, then the later stages never execute — the run makes exactly k+1
completion requests and stores exactly the artifacts of the k stages before
the failure, in order — and the CrewAI pipeline writes its output file only
after crew.kickoff returns successfully: a failing kickoff writes no file.
(The AutoGen script writes no output file on any path.) -/
theorem C4_failure_stops_pipeline (resp : Nat → Option String) (k : Nat)
    (hk : k < 4) (hfail : resp k = none)
    (hok : ∀ j, j < k → (resp j).isSome = true) :
    ((autogenRun resp).failed = true ∧
     (autogenRun resp).calls.length = k + 1 ∧
     (autogenRun resp).outputs.length = k ∧
     (autogenRun resp).outputs.map Prod.fst =
       ["research", "analysis", "blueprint", "review"].take k) ∧
    (∀ (p : CrewParams) (now : String),
      (crewaiMain p true none now).fileContent = none) := by
  constructor
  · interval_cases k
    · simp [autogenRun, runPhases, autogenPhases, phase, hfail]
    · obtain ⟨a, ha⟩ := Option.isSome_iff_exists.mp (hok 0 (by omega))
      simp [autogenRun, runPhases, autogenPhases, phase, getOutput, ha, hfail]
    · obtain ⟨a, ha⟩ := Option.isSome_iff_exists.mp (hok 0 (by omega))
      obtain ⟨b, hb⟩ := Option.isSome_iff_exists.mp (hok 1 (by omega))
      simp [autogenRun, runPhases, autogenPhases, phase, getOutput, ha, hb,
        hfail]
    · obtain ⟨a, ha⟩ := Option.isSome_iff_exists.mp (hok 0 (by omega))
      obtain ⟨b, hb⟩ := Option.isSome_iff_exists.mp (hok 1 (by omega))
      obtain ⟨c, hc⟩ := Option.isSome_iff_exists.mp (hok 2 (by omega))
      simp [autogenRun, runPhases, autogenPhases, phase, getOutput, ha, hb,
        hc, hfail]
  · intro p now
    rfl

/-- Witness for C4: with a completion boundary that fails on the very first
request, the run aborts with one request made and an empty context, and a
CrewAI run whose kickoff fails writes no file. -/
theorem C4_failure_stops_pipeline_witness :
    ((autogenRun (fun _ => none)).failed = true ∧
     (autogenRun (fun _ => none)).calls.length = 0 + 1 ∧
     (autogenRun (fun _ => none)).outputs.length = 0 ∧
     (autogenRun (fun _ => none)).outputs.map Prod.fst =
       ["research", "analysis", "blueprint", "review"].take 0) ∧
    (crewaiMain {} true none "2026-01-15 09:00:00").fileContent = none :=
  ⟨(C4_failure_stops_pipeline (fun _ => none) 0 (by omega) rfl
      (fun j hj => absurd hj (by omega))).1,
   (C4_failure_stops_pipeline (fun _ => none) 0 (by omega) rfl
      (fun j hj => absurd hj (by omega))).2 {} "2026-01-15 09:00:00"⟩

/-- C5: when configuration validation fails, both entry points abort with a
non-zero exit code before any completion request is issued — the AutoGen
constructor calls exit(1) before the client is built (0 completion calls) and
crewai_demo.main calls exit(1) before any agent, task, or kickoff (0 kickoff
calls, no file written). -/
theorem C5_config_failure_aborts_before_any_call
    (complete : Nat → Option String) (p : CrewParams)
    (kickoff : Option String) (now : String) :
    (autogenMain false complete).1 ≠ 0 ∧
    (autogenMain false complete).2 = 0 ∧
    (crewaiMain p false kickoff now).exitCode ≠ 0 ∧
    (crewaiMain p false kickoff now).kickoffCalls = 0 ∧
    (crewaiMain p false kickoff now).fileContent = none :=
  ⟨Nat.one_ne_zero, rfl, Nat.one_ne_zero, rfl, rfl⟩

/-- An artifact of 501 characters, used to exercise the preview threshold. -/
def longArtifact : String := String.mk (List.replicate 501 'x')

/-- C6: the per-stage preview expression is the same in all four stages, and
for an artifact of length L it returns the artifact unchanged when L ≤ 500 and
exactly the first 500 characters followed by "..." when L > 500. -/
theorem C6_preview_truncation (outs : List (String × String)) (s : String) :
    researchPreview outs = preview (getOutput outs "research") ∧
    analysisPreview outs = preview (getOutput outs "analysis") ∧
    blueprintPreview outs = preview (getOutput outs "blueprint") ∧
    reviewPreview outs = preview (getOutput outs "review") ∧
    (s.length ≤ 500 → preview s = s) ∧
    (s.length > 500 → preview s = s.take 500 ++ "...") := by
  refine ⟨rfl, rfl, rfl, rfl, ?_, ?_⟩
  · intro h
    unfold preview
    rw [if_neg (by omega)]
  · intro h
    unfold preview
    rw [if_pos (by omega)]

set_option maxRecDepth 10000 in
/-- Witness for C6: a short artifact is printed unchanged; a 501-character
artifact is truncated to its first 500 characters plus an ellipsis. -/
theorem C6_preview_truncation_witness :
    "short artifact".length ≤ 500 ∧
    preview "short artifact" = "short artifact" ∧
    500 < longArtifact.length ∧
    preview longArtifact = longArtifact.take 500 ++ "..." :=
  ⟨by decide,
   (C6_preview_truncation [] "short artifact").2.2.2.2.1 (by decide),
   by decide,
   (C6_preview_truncation [] longArtifact).2.2.2.2.2 (by decide)⟩

/-- C7: every tool function is a pure deterministic string template — in this
embedding each is a total function from its parameters to a string (no I/O
effect exists in its type), two applications to identical parameters are
byte-identical, and the instructional text interpolates the parameters
verbatim. -/
theorem C7_tools_pure_deterministic
    (destination departure_city location check_in_date : String) :
    (search_flight_prices destination departure_city =
      search_flight_prices destination departure_city ∧
     search_hotel_options location check_in_date =
      search_hotel_options location check_in_date ∧
     search_attractions_activities destination =
      search_attractions_activities destination ∧
     search_travel_costs destination = search_travel_costs destination) ∧
    (Contains (search_flight_prices destination departure_city) destination ∧
     Contains (search_flight_prices destination departure_city)
       departure_city ∧
     Contains (search_hotel_options location check_in_date) location ∧
     Contains (search_hotel_options location check_in_date) check_in_date ∧
     Contains (search_attractions_activities destination) destination ∧
     Contains (search_travel_costs destination) destination) := by
  refine ⟨⟨rfl, rfl, rfl, rfl⟩, ?_, ?_, ?_, ?_, ?_, ?_⟩ <;>
    repeat first
      | exact contains_suffix _ _
      | apply contains_append_right

set_option maxRecDepth 10000 in
set_option maxHeartbeats 2000000 in
/-- C8 as stated is false: the output file's header echoes the execution
timestamp but not the run's subject parameters — the subject line is the
hardcoded literal "Planning a 5-Day Trip to Iceland", so a successful run for
destination "France" on dates "March 3-8, 2026" writes a file that mentions
neither its destination nor its dates. -/
theorem C8_counterexample :
    (crewaiMain ⟨"France", "4 days", "March 3-8, 2026", "Boston", 2, "budget"⟩
        true (some "PLAN") "2026-03-01 10:00:00").fileContent =
      some (crewaiOutputContent
        ⟨"France", "4 days", "March 3-8, 2026", "Boston", 2, "budget"⟩
        "2026-03-01 10:00:00" "PLAN") ∧
    ¬ Contains (crewaiOutputContent
        ⟨"France", "4 days", "March 3-8, 2026", "Boston", 2, "budget"⟩
        "2026-03-01 10:00:00" "PLAN") "France" ∧
    ¬ Contains (crewaiOutputContent
        ⟨"France", "4 days", "March 3-8, 2026", "Boston", 2, "budget"⟩
        "2026-03-01 10:00:00" "PLAN") "March 3-8, 2026" := by
  refine ⟨rfl, ?_, ?_⟩ <;> decide

set_option maxHeartbeats 2000000 in
/-- C8 amended: on a successful run, main writes exactly one flat text file
(the single with-open block, mode w, so it is overwritten on each invocation
and there are no per-stage writes), whose content is a fixed header block
echoing the execution timestamp — with a hardcoded subject line independent of
the actual run parameters — followed by the full final aggregated artifact as
plain text. -/
theorem C8_output_file_header_and_artifact (p : CrewParams)
    (now result : String) :
    (crewaiMain p true (some result) now).fileContent =
      some (crewaiOutputContent p now result) ∧
    (crewaiMain p true none now).fileContent = none ∧
    Contains (crewaiOutputContent p now result) now ∧
    Contains (crewaiOutputContent p now result) result ∧
    crewaiOutputContent p now result =
      crewaiOutputContent {} now result := by
  refine ⟨rfl, rfl, ?_, ?_, rfl⟩ <;>
    repeat first
      | exact contains_suffix _ _
      | apply contains_append_right

/-- C9: create_hotel_agent and create_hotel_task compute the hotel location by
the same case-insensitive mapping — "Reykjavik" for destination.lower() ==
"iceland", "Paris" for "france", "Tokyo" for "japan", the destination itself
otherwise — and the hotel agent's goal and the hotel task's description both
name that same city verbatim. -/
theorem C9_hotel_location_consistent (destination trip_dates : String) :
    hotelLocationAgent destination = hotelLocationTask destination ∧
    (strLower destination = "iceland" →
      hotelLocationAgent destination = "Reykjavik") ∧
    (strLower destination = "france" →
      hotelLocationAgent destination = "Paris") ∧
    (strLower destination = "japan" →
      hotelLocationAgent destination = "Tokyo") ∧
    (strLower destination ≠ "iceland" → strLower destination ≠ "france" →
      strLower destination ≠ "japan" →
      hotelLocationAgent destination = destination) ∧
    Contains (create_hotel_agent destination trip_dates).goal
      (hotelLocationAgent destination) ∧
    Contains (create_hotel_task (create_hotel_agent destination trip_dates)
      destination trip_dates).description (hotelLocationTask destination) := by
  refine ⟨rfl, ?_, ?_, ?_, ?_, ?_, ?_⟩
  · intro h
    unfold hotelLocationAgent
    rw [h]
    rfl
  · intro h
    unfold hotelLocationAgent
    rw [h]
    rfl
  · intro h
    unfold hotelLocationAgent
    rw [h]
    rfl
  · intro h1 h2 h3
    simp [hotelLocationAgent, h1, h2, h3]
  · repeat first
      | exact contains_suffix _ _
      | apply contains_append_right
  · repeat first
      | exact contains_suffix _ _
      | apply contains_append_right

/-- Witness for C9: the mapping at the three special destinations and at a
destination outside the mapping. -/
theorem C9_hotel_location_consistent_witness :
    hotelLocationAgent "Iceland" = "Reykjavik" ∧
    hotelLocationAgent "France" = "Paris" ∧
    hotelLocationAgent "Japan" = "Tokyo" ∧
    hotelLocationAgent "Norway" = "Norway" ∧
    hotelLocationAgent "Norway" = hotelLocationTask "Norway" :=
  ⟨(C9_hotel_location_consistent "Iceland" "January 15-20, 2026").2.1
     (by decide),
   (C9_hotel_location_consistent "France" "January 15-20, 2026").2.2.1
     (by decide),
   (C9_hotel_location_consistent "Japan" "January 15-20, 2026").2.2.2.1
     (by decide),
   (C9_hotel_location_consistent "Norway" "January 15-20, 2026").2.2.2.2.1
     (by decide) (by decide) (by decide),
   (C9_hotel_location_consistent "Norway" "January 15-20, 2026").1⟩

/-- C10: two invocations of crewai_demo.main that differ only in travelers
and/or budget_preference construct identical agents and identical tasks (so
those two parameters appear in no agent goal, backstory, task description, or
expected output as data); the two parameters flow only into the console banner
lines and the inputs dictionary passed to crew.kickoff, where they do
appear. -/
theorem C10_travelers_budget_noninterference (p q : CrewParams)
    (hd : p.destination = q.destination)
    (hu : p.trip_duration = q.trip_duration)
    (ht : p.trip_dates = q.trip_dates)
    (hc : p.departure_city = q.departure_city) :
    (mainSetup p).agents = (mainSetup q).agents ∧
    (mainSetup p).tasks = (mainSetup q).tasks ∧
    (mainSetup p).kickoffInputs.travelers = p.travelers ∧
    (mainSetup p).kickoffInputs.budget_preference = p.budget_preference ∧
    Contains (mainSetup p).bannerBudget p.budget_preference := by
  obtain ⟨d, u, t, c, tr, b⟩ := p
  obtain ⟨d2, u2, t2, c2, tr2, b2⟩ := q
  dsimp only at hd hu ht hc
  subst hd
  subst hu
  subst ht
  subst hc
  exact ⟨rfl, rfl, rfl, rfl, contains_suffix _ _⟩

/-- Witness for C10: the default parameters and a variant with 7 travelers and
a luxury budget construct the same agents and tasks. -/
theorem C10_travelers_budget_noninterference_witness :
    (mainSetup {}).agents =
      (mainSetup ⟨"Iceland", "5 days", "January 15-20, 2026", "New York", 7,
        "luxury"⟩).agents ∧
    (mainSetup {}).tasks =
      (mainSetup ⟨"Iceland", "5 days", "January 15-20, 2026", "New York", 7,
        "luxury"⟩).tasks :=
  ⟨(C10_travelers_budget_noninterference {}
      ⟨"Iceland", "5 days", "January 15-20, 2026", "New York", 7, "luxury"⟩
      rfl rfl rfl rfl).1,
   (C10_travelers_budget_noninterference {}
      ⟨"Iceland", "5 days", "January 15-20, 2026", "New York", 7, "luxury"⟩
      rfl rfl rfl rfl).2.1⟩
